import Mathlib

/-!
Verification development for the vault-based agent orchestrator.

The embedding models, over explicit state values:
  - the approval signature registry and duplicate filtering of src/main.py;
  - the Odoo approved-invoice loop of src/main.py (process_odoo_approved);
  - the service health monitor, retry combinator, offline queue sweep and
    graceful-degradation executor of src/utils/error_recovery.py;
  - the claim-by-rename primitives of src/scripts/cloud/cloud_draft_worker.py
    and src/scripts/local/local_executive_agent.py;
  - the single-writer dashboard gate of src/scheduler/tasks/update_dashboard.py.

Text is represented as List Char so that every operation is a plain
structural recursion that the kernel can evaluate.  Wall-clock instants are
integers (seconds).  The SHA-256 hex digest from hashlib is modelled as an
injective tagging function (a collision-free idealisation of the digest);
filesystem directories are lists of names or of files.
-/

namespace DigitalFTE

/-- Text as a list of characters, so all operations compute in the kernel. -/
abbrev Str := List Char

/-- Coerces a string literal to the character-list representation. -/
def str (s : String) : Str := s.data

/-- Whitespace set stripped by the Python str.strip method. -/
def pyIsSpace (c : Char) : Bool :=
  c = ' ' || c = '\t' || c = '\n' || c = '\r' || c = '\x0b' || c = '\x0c'

/-- Python str.strip with no argument: drop whitespace from both ends. -/
def pyStrip (s : Str) : Str :=
  ((s.dropWhile pyIsSpace).reverse.dropWhile pyIsSpace).reverse

/-- Python str.strip with a one-character argument: drop that character from both ends. -/
def pyStripChar (ch : Char) (s : Str) : Str :=
  ((s.dropWhile (fun c => c = ch)).reverse.dropWhile (fun c => c = ch)).reverse

/-- Splits a character list at every occurrence of the separator character. -/
def splitOnChar (sep : Char) : Str → List Str
  | [] => [[]]
  | c :: rest =>
    let r := splitOnChar sep rest
    if c = sep then [] :: r
    else
      match r with
      | [] => [[c]]
      | h :: t => (c :: h) :: t

/-- Python str.splitlines for newline-separated text: a trailing newline does
not produce a final empty line, and the empty string has no lines. -/
def pySplitlines (s : Str) : List Str :=
  if s = [] then []
  else
    let parts := splitOnChar '\n' s
    if parts.getLast? = some [] then parts.dropLast else parts

/-- Python str.split(sep, 1) when the separator occurs: the part before the
first separator and everything after it. -/
def splitFirst (sep : Char) : Str → Option (Str × Str)
  | [] => none
  | c :: rest =>
    if c = sep then some ([], rest)
    else
      match splitFirst sep rest with
      | some (a, b) => some (c :: a, b)
      | none => none

/-- Substring containment test, as the Python in operator on strings. -/
def containsSeq (pat : Str) : Str → Bool
  | [] => pat.isPrefixOf []
  | c :: rest => pat.isPrefixOf (c :: rest) || containsSeq pat rest

/-- Decimal digit list to a natural number. -/
def digitsToNat (l : Str) : Nat :=
  l.foldl (fun acc c => 10 * acc + (c.toNat - 48)) 0

/-- Parses a plain decimal literal into sign, integer digits and fraction
digits, after stripping surrounding whitespace as Python float does.  Returns
none when the text is not of that shape (the model leaves exponent and
special float forms out of scope; the repository only writes plain decimals). -/
def parseNumParts (s : Str) : Option (Bool × Str × Str) :=
  let t := pyStrip s
  let core : Str → Option (Str × Str) := fun u =>
    let ip := u.takeWhile Char.isDigit
    let rest := u.dropWhile Char.isDigit
    match rest with
    | [] => if ip = [] then none else some (ip, [])
    | '.' :: frac =>
      if frac.all Char.isDigit && !(ip = [] && frac = []) then some (ip, frac) else none
    | _ => none
  match t with
  | '-' :: u => (core u).map (fun p => (true, p.1, p.2))
  | '+' :: u => (core u).map (fun p => (false, p.1, p.2))
  | u => (core u).map (fun p => (false, p.1, p.2))

/-- Models _safe_int of src/main.py: strip the text, remove dollar signs and
commas, parse as a float and truncate toward zero; any failure yields the
default.  Truncation of sign and integer digits agrees with int(float(x)) on
plain decimal literals. -/
def pySafeInt (v : Str) (dflt : Int) : Int :=
  let cleaned := (pyStrip v).filter (fun c => !(c = '$' || c = ','))
  match parseNumParts cleaned with
  | some (neg, ip, _) =>
    if neg then -(digitsToNat ip : Int) else (digitsToNat ip : Int)
  | none => dflt

/-- Models _safe_float of src/main.py over exact rationals. -/
def pySafeFloat (v : Str) (dflt : ℚ) : ℚ :=
  let cleaned := (pyStrip v).filter (fun c => !(c = '$' || c = ','))
  match parseNumParts cleaned with
  | some (neg, ip, fp) =>
    let mag : ℚ := (digitsToNat ip : ℚ) + (digitsToNat fp : ℚ) / (10 ^ fp.length)
    if neg then -mag else mag
  | none => dflt

/-- Work item materialised as a file: a name and a full text content. -/
structure VFile where
  name : Str
  content : Str
deriving DecidableEq, Repr

/-- Models hashlib.sha256(payload).hexdigest() as an injective tag of the
hashed payload: a collision-free idealisation of the digest, adequate for
reasoning about which payload the code feeds to the hash. -/
def sha256hex (payload : Str) : Str := str "sha256:" ++ payload

/-- Models _approval_signature of src/main.py: the digest of the entire file
content, with the file path playing no part. -/
def approval_signature (f : VFile) : Str := sha256hex f.content

/-- Modelled from the spec wording for claim C4: signature_of(item) =
hash(stable_path_fingerprint combined with first_N_bytes_of_content), reading
the path fingerprint as the file name, the combination as concatenation and
first N bytes as a prefix of the content. -/
def approval_signature_spec (n : Nat) (f : VFile) : Str :=
  sha256hex (f.name ++ f.content.take n)

theorem sha256hex_inj {a b : Str} (h : sha256hex a = sha256hex b) : a = b := by
  simpa [sha256hex] using h

/-- Claim C4, counterexample: the registry signature computed by the code is
insensitive to the file path — two files with different names and identical
content receive the same signature — whereas the formula of the spec, which
mixes a path fingerprint into the hashed payload, separates them.  So the
signature is not a hash of a path fingerprint combined with a content
prefix. -/
theorem C4_counterexample :
    approval_signature ⟨str "A.md", str "same body"⟩ =
      approval_signature ⟨str "B.md", str "same body"⟩ ∧
    (⟨str "A.md", str "same body"⟩ : VFile).name ≠
      (⟨str "B.md", str "same body"⟩ : VFile).name ∧
    approval_signature_spec 1024 ⟨str "A.md", str "same body"⟩ ≠
      approval_signature_spec 1024 ⟨str "B.md", str "same body"⟩ := by
  refine ⟨by decide, by decide, by decide⟩

/-- Claim C4, amended: the deduplication signature is the SHA-256 digest of
the entire content of the item and of nothing else; files with equal content
obtain equal signatures whatever their names (which is what makes the
identity resilient to renames), and under the collision-free idealisation of
the digest, equal signatures conversely force equal content. -/
theorem C4_amended (f g : VFile) (hc : f.content = g.content) :
    approval_signature f = sha256hex f.content ∧
    approval_signature f = approval_signature g ∧
    (∀ u v : VFile, approval_signature u = approval_signature v →
      u.content = v.content) := by
  refine ⟨rfl, by simp [approval_signature, hc], ?_⟩
  intro u v h
  exact sha256hex_inj h

/-- Witness for C4_amended at two concretely renamed copies of one body. -/
theorem C4_witness :
    approval_signature ⟨str "OLD.md", str "x"⟩ = sha256hex (str "x") ∧
    approval_signature ⟨str "OLD.md", str "x"⟩ =
      approval_signature ⟨str "NEW.md", str "x"⟩ ∧
    (∀ u v : VFile, approval_signature u = approval_signature v →
      u.content = v.content) :=
  C4_amended ⟨str "OLD.md", str "x"⟩ ⟨str "NEW.md", str "x"⟩ (by decide)

/-! Service health monitor (ServiceHealthMonitor of src/utils/error_recovery.py).
Each record_success / record_failure call replaces the whole per-service entry,
so fields absent from the newly written dictionary are modelled as none. -/

/-- Per-service entry of Logs/service_health.json.  Fields the code did not
write in the latest update are none, mirroring the replaced dictionary. -/
structure HealthEntry where
  status : String
  consecutive_failures : Nat
  last_success : Option Int
  last_failure : Option Int
  last_error : Option String
  last_check : Option Int
deriving DecidableEq, Repr

/-- Persisted health map, keyed by service name. -/
abbrev Health := List (String × HealthEntry)

/-- Dictionary lookup on the health map. -/
def lookupService (h : Health) (svc : String) : Option HealthEntry :=
  (h.find? (fun p => p.1 = svc)).map Prod.snd

/-- Dictionary update on the health map: replace the entry or append it. -/
def setService : Health → String → HealthEntry → Health
  | [], svc, e => [(svc, e)]
  | (k, v) :: t, svc, e =>
    if k = svc then (svc, e) :: t else (k, v) :: setService t svc e

/-- Consecutive failures before a service is marked unavailable. -/
def failure_threshold : Nat := 3

/-- Recovery window before an unavailable service may be retried, in seconds. -/
def recovery_window : Int := 300

/-- Models ServiceHealthMonitor.record_success: the entry is replaced by a
healthy record carrying exactly status, consecutive_failures, last_success
and last_check. -/
def record_success (h : Health) (svc : String) (now : Int) : Health :=
  setService h svc
    { status := "healthy"
      consecutive_failures := 0
      last_success := some now
      last_failure := none
      last_error := none
      last_check := some now }

/-- Models ServiceHealthMonitor.record_failure: increment the consecutive
failure count of the current entry (0 when absent), escalate the status to
unavailable at the threshold, and replace the entry with one carrying exactly
status, consecutive_failures, last_failure, last_error and last_check. -/
def record_failure (h : Health) (svc : String) (err : String) (now : Int) : Health :=
  let failures :=
    (match lookupService h svc with
     | some e => e.consecutive_failures
     | none => 0) + 1
  let st := if failures ≥ failure_threshold then "unavailable" else "degraded"
  setService h svc
    { status := st
      consecutive_failures := failures
      last_success := none
      last_failure := some now
      last_error := some err
      last_check := some now }

/-- Models ServiceHealthMonitor.get_status. -/
def get_status (h : Health) (svc : String) : String :=
  match lookupService h svc with
  | some e => e.status
  | none => "unknown"

/-- Models ServiceHealthMonitor.is_available at a given current time. -/
def is_available (h : Health) (svc : String) (now : Int) : Bool :=
  let st := get_status h svc
  if st = "healthy" then true
  else if st = "unavailable" then
    match lookupService h svc with
    | some e =>
      match e.last_check with
      | some lc => decide (now - lc > recovery_window)
      | none => false
    | none => false
  else true

theorem lookup_setService_self (h : Health) (svc : String) (e : HealthEntry) :
    lookupService (setService h svc e) svc = some e := by
  induction h with
  | nil => simp [setService, lookupService]
  | cons p t ih =>
    by_cases hk : p.1 = svc
    · simp [setService, lookupService, hk]
    · cases p with
      | mk k v =>
        simp only at hk
        simp only [setService, if_neg hk]
        simpa [lookupService, List.find?, hk] using ih

/-- Claim C3: from a healthy record, three consecutive failures walk the
status through degraded, degraded, unavailable, with the escalation happening
exactly when the consecutive-failure count reaches the threshold 3; while
unavailable, is_available holds exactly when more than the five-minute
recovery window has passed since last_check, and one more recorded failure
inside the window keeps the service unavailable to callers. -/
theorem C3_circuit_escalation (h : Health) (svc : String)
    (e1 e2 e3 e4 : String) (t0 t1 t2 t3 t4 now now2 : Int)
    (hwin : now2 - t4 ≤ recovery_window) :
    get_status (record_success h svc t0) svc = "healthy" ∧
    get_status (record_failure (record_success h svc t0) svc e1 t1) svc
      = "degraded" ∧
    get_status (record_failure (record_failure (record_success h svc t0) svc e1 t1)
      svc e2 t2) svc = "degraded" ∧
    get_status (record_failure (record_failure (record_failure
      (record_success h svc t0) svc e1 t1) svc e2 t2) svc e3 t3) svc
      = "unavailable" ∧
    (lookupService (record_failure (record_failure (record_failure
      (record_success h svc t0) svc e1 t1) svc e2 t2) svc e3 t3) svc).map
        HealthEntry.consecutive_failures = some failure_threshold ∧
    (is_available (record_failure (record_failure (record_failure
      (record_success h svc t0) svc e1 t1) svc e2 t2) svc e3 t3) svc now = true
      ↔ now - t3 > recovery_window) ∧
    is_available (record_failure (record_failure (record_failure (record_failure
      (record_success h svc t0) svc e1 t1) svc e2 t2) svc e3 t3) svc e4 t4)
      svc now2 = false := by
  refine ⟨?_, ?_, ?_, ?_, ?_, ?_, ?_⟩
  · simp [record_success, get_status, lookup_setService_self]
  · simp [record_success, record_failure, get_status, failure_threshold,
      lookup_setService_self]
  · simp [record_success, record_failure, get_status, failure_threshold,
      lookup_setService_self]
  · simp [record_success, record_failure, get_status, failure_threshold,
      lookup_setService_self]
  · simp [record_success, record_failure, failure_threshold,
      lookup_setService_self]
  · simp [record_success, record_failure, get_status, is_available,
      failure_threshold, lookup_setService_self]
  · simp [record_success, record_failure, get_status, is_available,
      failure_threshold, lookup_setService_self, recovery_window] at hwin ⊢
    omega

/-- Witness for C3_circuit_escalation on an empty initial map with concrete
times inside the recovery window. -/
theorem C3_witness :
    get_status (record_success [] "svc" 0) "svc" = "healthy" ∧
    get_status (record_failure (record_success [] "svc" 0) "svc" "e" 1) "svc"
      = "degraded" ∧
    get_status (record_failure (record_failure (record_success [] "svc" 0) "svc" "e" 1)
      "svc" "e" 2) "svc" = "degraded" ∧
    get_status (record_failure (record_failure (record_failure
      (record_success [] "svc" 0) "svc" "e" 1) "svc" "e" 2) "svc" "e" 3) "svc"
      = "unavailable" ∧
    (lookupService (record_failure (record_failure (record_failure
      (record_success [] "svc" 0) "svc" "e" 1) "svc" "e" 2) "svc" "e" 3) "svc").map
        HealthEntry.consecutive_failures = some failure_threshold ∧
    (is_available (record_failure (record_failure (record_failure
      (record_success [] "svc" 0) "svc" "e" 1) "svc" "e" 2) "svc" "e" 3) "svc" 10 = true
      ↔ (10 : Int) - 3 > recovery_window) ∧
    is_available (record_failure (record_failure (record_failure (record_failure
      (record_success [] "svc" 0) "svc" "e" 1) "svc" "e" 2) "svc" "e" 3) "svc" "e" 4)
      "svc" 10 = false :=
  C3_circuit_escalation [] "svc" "e" "e" "e" "e" 0 1 2 3 4 10 10 (by decide)

/-- Claim C10: record_success replaces the per-service entry with a record
holding exactly status healthy, zero consecutive failures, last_success and
last_check at the current instant; whatever last_failure and last_error the
previous entry carried are gone. -/
theorem C10_record_success_resets (h : Health) (svc : String) (t : Int) :
    lookupService (record_success h svc t) svc =
      some { status := "healthy"
             consecutive_failures := 0
             last_success := some t
             last_failure := none
             last_error := none
             last_check := some t } := by
  simp [record_success, lookup_setService_self]

/-! Retry combinator (with_retry of src/utils/error_recovery.py).  One call of
the wrapped operation per loop iteration; an error is either of a retryable
kind (TransientError, ConnectionError, TimeoutError) or not.  Delays passed to
time.sleep are collected as exact rationals. -/

/-- Outcome of one invocation of the wrapped operation: a value, or an error
whose kind is retryable or not, with a message. -/
inductive OpResult (α : Type) where
  | ok (a : α)
  | err (retryable : Bool) (msg : String)
deriving DecidableEq, Repr

/-- Final outcome of the retry wrapper: a returned value, a re-raised error,
or the degenerate raise of a missing last error when zero attempts were
allowed. -/
inductive RetryOutcome (α : Type) where
  | result (a : α)
  | raised (retryable : Bool) (msg : String)
  | noAttempt
deriving DecidableEq, Repr

/-- Trace of a with_retry run: final outcome, number of invocations of the
operation, and the sleep durations in order. -/
structure RetryTrace (α : Type) where
  outcome : RetryOutcome α
  calls : Nat
  sleeps : List ℚ
deriving DecidableEq, Repr

/-- Python min over exact rationals. -/
def pyMin (a b : ℚ) : ℚ := if a ≤ b then a else b

/-- Models the attempt loop of with_retry from a given attempt index: invoke
the operation; return its value on success; on a retryable error re-raise at
the last attempt and otherwise sleep min(base * expBase ^ attempt, maxDelay)
and continue; on a non-retryable error re-raise at once. -/
def retry_loop {α : Type} (op : Nat → OpResult α) (maxAttempts : Nat)
    (baseDelay maxDelay expBase : ℚ) (attempt : Nat) : RetryTrace α :=
  if _h : attempt < maxAttempts then
    match op attempt with
    | OpResult.ok a => ⟨RetryOutcome.result a, 1, []⟩
    | OpResult.err true msg =>
      if attempt = maxAttempts - 1 then ⟨RetryOutcome.raised true msg, 1, []⟩
      else
        let d := pyMin (baseDelay * expBase ^ attempt) maxDelay
        let r := retry_loop op maxAttempts baseDelay maxDelay expBase (attempt + 1)
        ⟨r.outcome, r.calls + 1, d :: r.sleeps⟩
    | OpResult.err false msg => ⟨RetryOutcome.raised false msg, 1, []⟩
  else ⟨RetryOutcome.noAttempt, 0, []⟩
termination_by maxAttempts - attempt
decreasing_by omega

/-- Models the with_retry wrapper applied to one operation.  The source
defaults are maxAttempts 3, baseDelay 1, maxDelay 60, expBase 2. -/
def with_retry {α : Type} (op : Nat → OpResult α) (maxAttempts : Nat)
    (baseDelay maxDelay expBase : ℚ) : RetryTrace α :=
  retry_loop op maxAttempts baseDelay maxDelay expBase 0

theorem retry_loop_all_retryable {α : Type} (op : Nat → OpResult α)
    (m : Nat → String) (maxAttempts : Nat) (baseDelay maxDelay expBase : ℚ) :
    ∀ n attempt, maxAttempts - attempt = n → attempt < maxAttempts →
    (∀ i, attempt ≤ i → i < maxAttempts → op i = OpResult.err true (m i)) →
    retry_loop op maxAttempts baseDelay maxDelay expBase attempt =
      ⟨RetryOutcome.raised true (m (maxAttempts - 1)), maxAttempts - attempt,
        (List.range' attempt (maxAttempts - 1 - attempt)).map
          (fun i => pyMin (baseDelay * expBase ^ i) maxDelay)⟩ := by
  intro n
  induction n with
  | zero => intro attempt h0 hlt; omega
  | succ k ih =>
    intro attempt h0 hlt hop
    rw [retry_loop]
    rw [dif_pos hlt]
    rw [hop attempt (Nat.le_refl attempt) hlt]
    by_cases hlast : attempt = maxAttempts - 1
    · simp only [if_pos hlast]
      have h1 : maxAttempts - attempt = 1 := by omega
      have h2 : maxAttempts - 1 - attempt = 0 := by omega
      rw [h1, h2, hlast]
      simp
    · simp only [if_neg hlast]
      have hlt2 : attempt + 1 < maxAttempts := by omega
      rw [ih (attempt + 1) (by omega) hlt2
        (fun i hi1 hi2 => hop i (by omega) hi2)]
      have h3 : maxAttempts - (attempt + 1) + 1 = maxAttempts - attempt := by omega
      have h4 : maxAttempts - 1 - attempt = (maxAttempts - 1 - (attempt + 1)) + 1 := by
        omega
      simp only [h3, h4, List.range'_succ, List.map_cons]

theorem retry_loop_nonretryable {α : Type} (op : Nat → OpResult α)
    (m : Nat → String) (k : Nat) (msg : String) (maxAttempts : Nat)
    (baseDelay maxDelay expBase : ℚ) :
    ∀ n attempt, maxAttempts - attempt = n → attempt ≤ k → k < maxAttempts →
    (∀ i, attempt ≤ i → i < k → op i = OpResult.err true (m i)) →
    op k = OpResult.err false msg →
    (retry_loop op maxAttempts baseDelay maxDelay expBase attempt).outcome =
      RetryOutcome.raised false msg ∧
    (retry_loop op maxAttempts baseDelay maxDelay expBase attempt).calls =
      k - attempt + 1 := by
  intro n
  induction n with
  | zero => intro attempt h0 hak hlt; omega
  | succ j ih =>
    intro attempt h0 hak hlt hop hk
    rw [retry_loop]
    have hattlt : attempt < maxAttempts := by omega
    rw [dif_pos hattlt]
    by_cases heq : attempt = k
    · subst heq
      rw [hk]
      simp
    · have hoplt : op attempt = OpResult.err true (m attempt) :=
        hop attempt (Nat.le_refl attempt) (by omega)
      rw [hoplt]
      have hlast : attempt ≠ maxAttempts - 1 := by omega
      simp only [if_neg hlast]
      have := ih (attempt + 1) (by omega) (by omega) hlt
        (fun i hi1 hi2 => hop i (by omega) hi2) hk
      refine ⟨this.1, ?_⟩
      simp only [this.2]
      omega

/-- Claim C5: when every invocation fails with a retryable error, with_retry
invokes the operation exactly maxAttempts times, sleeping
min(baseDelay * expBase ^ attempt, maxDelay) before each retry, and re-raises
the error of the final attempt; when an invocation fails with a non-retryable
error, the error propagates immediately after that single invocation, with no
further attempt. -/
theorem C5_with_retry (α : Type) (op1 op2 : Nat → OpResult α)
    (m1 m2 : Nat → String) (k : Nat) (msg : String) (maxAttempts : Nat)
    (baseDelay maxDelay expBase : ℚ)
    (hpos : 0 < maxAttempts)
    (hop1 : ∀ i, i < maxAttempts → op1 i = OpResult.err true (m1 i))
    (hop2 : ∀ i, i < k → op2 i = OpResult.err true (m2 i))
    (hk : op2 k = OpResult.err false msg)
    (hkA : k < maxAttempts) :
    with_retry op1 maxAttempts baseDelay maxDelay expBase =
      ⟨RetryOutcome.raised true (m1 (maxAttempts - 1)), maxAttempts,
        (List.range (maxAttempts - 1)).map
          (fun i => pyMin (baseDelay * expBase ^ i) maxDelay)⟩ ∧
    (with_retry op2 maxAttempts baseDelay maxDelay expBase).outcome =
      RetryOutcome.raised false msg ∧
    (with_retry op2 maxAttempts baseDelay maxDelay expBase).calls = k + 1 := by
  have h1 := retry_loop_all_retryable op1 m1 maxAttempts baseDelay maxDelay expBase
    maxAttempts 0 (by omega) hpos (fun i hi1 hi2 => hop1 i hi2)
  have h2 := retry_loop_nonretryable op2 m2 k msg maxAttempts baseDelay maxDelay
    expBase maxAttempts 0 (by omega) (Nat.zero_le k) hkA
    (fun i hi1 hi2 => hop2 i hi2) hk
  refine ⟨?_, h2.1, by simpa using h2.2⟩
  rw [with_retry, h1]
  simp [List.range_eq_range']

/-- Witness for C5_with_retry at the source defaults: three attempts, base
delay 1, delay cap 60, exponential base 2, an always-transiently-failing
operation, and an operation whose first invocation raises a non-retryable
error. -/
theorem C5_witness :
    with_retry (fun _ => OpResult.err true "boom" : Nat → OpResult Int) 3 1 60 2 =
      ⟨RetryOutcome.raised true "boom", 3,
        (List.range 2).map (fun i => pyMin ((1 : ℚ) * 2 ^ i) 60)⟩ ∧
    (with_retry (fun i => if i = 0 then OpResult.err false "denied"
      else OpResult.err true "boom" : Nat → OpResult Int) 3 1 60 2).outcome =
      RetryOutcome.raised false "denied" ∧
    (with_retry (fun i => if i = 0 then OpResult.err false "denied"
      else OpResult.err true "boom" : Nat → OpResult Int) 3 1 60 2).calls = 0 + 1 :=
  C5_with_retry Int (fun _ => OpResult.err true "boom")
    (fun i => if i = 0 then OpResult.err false "denied" else OpResult.err true "boom")
    (fun _ => "boom") (fun _ => "boom") 0 "denied" 3 1 60 2
    (by decide) (fun i _ => rfl) (fun i hi => by omega) (by decide) (by decide)

/-! Graceful-degradation executor (GracefulDegradation.execute_with_fallback
of src/utils/error_recovery.py).  The primary action and the fallback are
modelled by their outcome: a returned value or a raised exception. -/

/-- Outcome of running a callable: a value or a raised exception message. -/
inductive Outcome (α : Type) where
  | ok (a : α)
  | exn (msg : String)
deriving DecidableEq, Repr

/-- Observable effects of one execute_with_fallback call. -/
structure ExecResult (α : Type) where
  health : Health
  primary_invoked : Bool
  fallback_invoked : Bool
  recorded_success : Bool
  recorded_failure : Bool
  enqueued : Bool
  result : Option α
deriving DecidableEq, Repr

/-- Models GracefulDegradation.execute_with_fallback: when the health monitor
reports the service unavailable, the primary is skipped and the fallback is
tried when present (its value being returned when it succeeds), after which
the action is queued offline when queuing is enabled and action data was
supplied; otherwise the primary runs, success records a healthy service and
returns the value, and failure records the failure, tries the fallback, and
finally queues offline. -/
def execute_with_fallback {α : Type} (h : Health) (now : Int) (svc : String)
    (action : Outcome α) (fallback : Option (Outcome α))
    (queue_on_failure : Bool) (action_data : Option String) : ExecResult α :=
  if !(is_available h svc now) then
    match fallback with
    | some (Outcome.ok b) => ⟨h, false, true, false, false, false, some b⟩
    | some (Outcome.exn _) =>
      if queue_on_failure && action_data.isSome then
        ⟨h, false, true, false, false, true, none⟩
      else ⟨h, false, true, false, false, false, none⟩
    | none =>
      if queue_on_failure && action_data.isSome then
        ⟨h, false, false, false, false, true, none⟩
      else ⟨h, false, false, false, false, false, none⟩
  else
    match action with
    | Outcome.ok a =>
      ⟨record_success h svc now, true, false, true, false, false, some a⟩
    | Outcome.exn e =>
      let h1 := record_failure h svc e now
      match fallback with
      | some (Outcome.ok b) => ⟨h1, true, true, false, true, false, some b⟩
      | some (Outcome.exn _) =>
        if queue_on_failure && action_data.isSome then
          ⟨h1, true, true, false, true, true, none⟩
        else ⟨h1, true, true, false, true, false, none⟩
      | none =>
        if queue_on_failure && action_data.isSome then
          ⟨h1, true, false, false, true, true, none⟩
        else ⟨h1, true, false, false, true, false, none⟩

/-- Health map in which service svc has just crossed the failure threshold
and is unavailable with last_check at instant 0. -/
def unavailableHealth : Health :=
  record_failure (record_failure (record_failure [] "svc" "down" 0)
    "svc" "down" 0) "svc" "down" 0

/-- Claim C6, counterexample: with the service unavailable and a fallback
present that succeeds with the value 42, execute_with_fallback returns that
value rather than nothing, so the unavailable branch of the claim, which says
the call returns nothing, does not hold. -/
theorem C6_counterexample :
    is_available unavailableHealth "svc" 0 = false ∧
    (execute_with_fallback unavailableHealth 0 "svc" (Outcome.ok (1 : Int))
      (some (Outcome.ok 42)) true (some "payload")).primary_invoked = false ∧
    (execute_with_fallback unavailableHealth 0 "svc" (Outcome.ok (1 : Int))
      (some (Outcome.ok 42)) true (some "payload")).result = some 42 := by
  refine ⟨by decide, by decide, by decide⟩

/-- Claim C6, amended: when the service is unavailable the primary action is
never invoked and nothing is recorded; with a fallback present the fallback is
tried, and when it succeeds its value is returned, while a failed or missing
fallback leads to the action being queued offline (queuing being enabled and
payload data supplied) with nothing returned.  When the service is available
the primary runs: success records a healthy service and returns the value;
failure records the failure, a successful fallback value is returned, and with
no fallback or a failing fallback the action is queued offline with nothing
returned. -/
theorem C6_execute_with_fallback (α : Type) (h : Health) (now : Int)
    (svc : String) (action : Outcome α) (fallback : Option (Outcome α))
    (d : String) (qd : Option String) (hqd : qd = some d) :
    (is_available h svc now = false →
      (execute_with_fallback h now svc action fallback true qd).primary_invoked
        = false ∧
      (execute_with_fallback h now svc action fallback true qd).recorded_success
        = false ∧
      (execute_with_fallback h now svc action fallback true qd).recorded_failure
        = false ∧
      (∀ b, fallback = some (Outcome.ok b) →
        (execute_with_fallback h now svc action fallback true qd).fallback_invoked
          = true ∧
        (execute_with_fallback h now svc action fallback true qd).result = some b ∧
        (execute_with_fallback h now svc action fallback true qd).enqueued
          = false) ∧
      (∀ m, fallback = some (Outcome.exn m) →
        (execute_with_fallback h now svc action fallback true qd).fallback_invoked
          = true ∧
        (execute_with_fallback h now svc action fallback true qd).enqueued
          = true ∧
        (execute_with_fallback h now svc action fallback true qd).result = none) ∧
      (fallback = none →
        (execute_with_fallback h now svc action fallback true qd).fallback_invoked
          = false ∧
        (execute_with_fallback h now svc action fallback true qd).enqueued
          = true ∧
        (execute_with_fallback h now svc action fallback true qd).result
          = none)) ∧
    (is_available h svc now = true →
      (execute_with_fallback h now svc action fallback true qd).primary_invoked
        = true ∧
      (∀ a, action = Outcome.ok a →
        execute_with_fallback h now svc action fallback true qd =
          ⟨record_success h svc now, true, false, true, false, false, some a⟩) ∧
      (∀ e, action = Outcome.exn e →
        (execute_with_fallback h now svc action fallback true qd).recorded_failure
          = true ∧
        (execute_with_fallback h now svc action fallback true qd).health
          = record_failure h svc e now ∧
        (∀ b, fallback = some (Outcome.ok b) →
          (execute_with_fallback h now svc action fallback true qd).result
            = some b ∧
          (execute_with_fallback h now svc action fallback true qd).enqueued
            = false) ∧
        ((∃ m, fallback = some (Outcome.exn m)) ∨ fallback = none →
          (execute_with_fallback h now svc action fallback true qd).enqueued
            = true ∧
          (execute_with_fallback h now svc action fallback true qd).result
            = none))) := by
  subst hqd
  constructor
  · intro hav
    refine ⟨?_, ?_, ?_, ?_, ?_, ?_⟩
    · cases fallback with
      | none => simp [execute_with_fallback, hav]
      | some o => cases o <;> simp [execute_with_fallback, hav]
    · cases fallback with
      | none => simp [execute_with_fallback, hav]
      | some o => cases o <;> simp [execute_with_fallback, hav]
    · cases fallback with
      | none => simp [execute_with_fallback, hav]
      | some o => cases o <;> simp [execute_with_fallback, hav]
    · intro b hb; subst hb; simp [execute_with_fallback, hav]
    · intro m hm; subst hm; simp [execute_with_fallback, hav]
    · intro hm; subst hm; simp [execute_with_fallback, hav]
  · intro hav
    refine ⟨?_, ?_, ?_⟩
    · cases action <;> cases fallback <;>
        simp_all [execute_with_fallback, hav] <;>
        (rename_i o; cases o <;> simp [execute_with_fallback, hav])
    · intro a ha; subst ha; simp [execute_with_fallback, hav]
    · intro e he; subst he
      refine ⟨?_, ?_, ?_, ?_⟩
      · cases fallback with
        | none => simp [execute_with_fallback, hav]
        | some o => cases o <;> simp [execute_with_fallback, hav]
      · cases fallback with
        | none => simp [execute_with_fallback, hav]
        | some o => cases o <;> simp [execute_with_fallback, hav]
      · intro b hb; subst hb; simp [execute_with_fallback, hav]
      · intro hcase
        rcases hcase with ⟨m, hm⟩ | hm <;> subst hm <;>
          simp [execute_with_fallback, hav]

/-- Witness for C6_execute_with_fallback with service svc unavailable in the
concrete health map and a concrete payload. -/
theorem C6_witness :
    (is_available unavailableHealth "svc" 0 = false →
      (execute_with_fallback unavailableHealth 0 "svc" (Outcome.ok (1 : Int))
        (some (Outcome.ok 42)) true (some "payload")).primary_invoked = false ∧
      (execute_with_fallback unavailableHealth 0 "svc" (Outcome.ok (1 : Int))
        (some (Outcome.ok 42)) true (some "payload")).recorded_success = false ∧
      (execute_with_fallback unavailableHealth 0 "svc" (Outcome.ok (1 : Int))
        (some (Outcome.ok 42)) true (some "payload")).recorded_failure = false ∧
      (∀ b, (some (Outcome.ok 42) : Option (Outcome Int)) = some (Outcome.ok b) →
        (execute_with_fallback unavailableHealth 0 "svc" (Outcome.ok (1 : Int))
          (some (Outcome.ok 42)) true (some "payload")).fallback_invoked = true ∧
        (execute_with_fallback unavailableHealth 0 "svc" (Outcome.ok (1 : Int))
          (some (Outcome.ok 42)) true (some "payload")).result = some b ∧
        (execute_with_fallback unavailableHealth 0 "svc" (Outcome.ok (1 : Int))
          (some (Outcome.ok 42)) true (some "payload")).enqueued = false) ∧
      (∀ m, (some (Outcome.ok 42) : Option (Outcome Int)) = some (Outcome.exn m) →
        (execute_with_fallback unavailableHealth 0 "svc" (Outcome.ok (1 : Int))
          (some (Outcome.ok 42)) true (some "payload")).fallback_invoked = true ∧
        (execute_with_fallback unavailableHealth 0 "svc" (Outcome.ok (1 : Int))
          (some (Outcome.ok 42)) true (some "payload")).enqueued = true ∧
        (execute_with_fallback unavailableHealth 0 "svc" (Outcome.ok (1 : Int))
          (some (Outcome.ok 42)) true (some "payload")).result = none) ∧
      ((some (Outcome.ok 42) : Option (Outcome Int)) = none →
        (execute_with_fallback unavailableHealth 0 "svc" (Outcome.ok (1 : Int))
          (some (Outcome.ok 42)) true (some "payload")).fallback_invoked = false ∧
        (execute_with_fallback unavailableHealth 0 "svc" (Outcome.ok (1 : Int))
          (some (Outcome.ok 42)) true (some "payload")).enqueued = true ∧
        (execute_with_fallback unavailableHealth 0 "svc" (Outcome.ok (1 : Int))
          (some (Outcome.ok 42)) true (some "payload")).result = none)) ∧
    (is_available unavailableHealth "svc" 0 = true →
      (execute_with_fallback unavailableHealth 0 "svc" (Outcome.ok (1 : Int))
        (some (Outcome.ok 42)) true (some "payload")).primary_invoked = true ∧
      (∀ a, (Outcome.ok (1 : Int)) = Outcome.ok a →
        execute_with_fallback unavailableHealth 0 "svc" (Outcome.ok (1 : Int))
          (some (Outcome.ok 42)) true (some "payload") =
          ⟨record_success unavailableHealth "svc" 0, true, false, true, false,
            false, some a⟩) ∧
      (∀ e, (Outcome.ok (1 : Int)) = Outcome.exn e →
        (execute_with_fallback unavailableHealth 0 "svc" (Outcome.ok (1 : Int))
          (some (Outcome.ok 42)) true (some "payload")).recorded_failure = true ∧
        (execute_with_fallback unavailableHealth 0 "svc" (Outcome.ok (1 : Int))
          (some (Outcome.ok 42)) true (some "payload")).health
          = record_failure unavailableHealth "svc" e 0 ∧
        (∀ b, (some (Outcome.ok 42) : Option (Outcome Int))
            = some (Outcome.ok b) →
          (execute_with_fallback unavailableHealth 0 "svc" (Outcome.ok (1 : Int))
            (some (Outcome.ok 42)) true (some "payload")).result = some b ∧
          (execute_with_fallback unavailableHealth 0 "svc" (Outcome.ok (1 : Int))
            (some (Outcome.ok 42)) true (some "payload")).enqueued = false) ∧
        ((∃ m, (some (Outcome.ok 42) : Option (Outcome Int))
            = some (Outcome.exn m)) ∨
            (some (Outcome.ok 42) : Option (Outcome Int)) = none →
          (execute_with_fallback unavailableHealth 0 "svc" (Outcome.ok (1 : Int))
            (some (Outcome.ok 42)) true (some "payload")).enqueued = true ∧
          (execute_with_fallback unavailableHealth 0 "svc" (Outcome.ok (1 : Int))
            (some (Outcome.ok 42)) true (some "payload")).result = none))) :=
  C6_execute_with_fallback Int unavailableHealth 0 "svc" (Outcome.ok 1)
    (some (Outcome.ok 42)) "payload" (some "payload") rfl

/-! Offline queue sweep (GracefulDegradation.process_offline_queue of
src/utils/error_recovery.py).  Pending items are taken in the already-sorted
order produced by OfflineQueue.get_pending; the processor maps item data to a
truthy or falsy success value, or raises. -/

/-- Pending offline-queue item: identifier, payload data, and the attempt
count read from disk before the sweep increments it. -/
structure QItem where
  id : String
  data : String
  attempts : Nat
deriving DecidableEq, Repr

/-- Result of invoking the queue processor on the data of one item. -/
inductive ProcResult where
  | success
  | failure
  | raised (msg : String)
deriving DecidableEq, Repr

/-- Observable effects of one offline-queue sweep. -/
structure SweepResult where
  health : Health
  attempted : List String
  completed : List String
  markedFailed : List String
deriving DecidableEq, Repr

/-- Loop body of process_offline_queue over the pending items: increment the
attempt counter of the item (counting it as attempted), run the processor;
truthy success marks the item completed and records service success; falsy
success marks the item failed once its prior attempt count is at least 5 and
continues; a raised error records a service failure, possibly marks the item
failed, and breaks out of the loop. -/
def sweep_go (svc : String) (now : Int) (proc : String → ProcResult) :
    Health → List QItem → SweepResult
  | h, [] => ⟨h, [], [], []⟩
  | h, item :: rest =>
    match proc item.data with
    | ProcResult.success =>
      let r := sweep_go svc now proc (record_success h svc now) rest
      ⟨r.health, item.id :: r.attempted, item.id :: r.completed, r.markedFailed⟩
    | ProcResult.failure =>
      let r := sweep_go svc now proc h rest
      if item.attempts ≥ 5 then
        ⟨r.health, item.id :: r.attempted, r.completed, item.id :: r.markedFailed⟩
      else ⟨r.health, item.id :: r.attempted, r.completed, r.markedFailed⟩
    | ProcResult.raised e =>
      let h1 := record_failure h svc e now
      if item.attempts ≥ 5 then ⟨h1, [item.id], [], [item.id]⟩
      else ⟨h1, [item.id], [], []⟩

/-- Models GracefulDegradation.process_offline_queue: nothing is attempted
when the health monitor reports the service unavailable; otherwise the pending
items are processed in order by sweep_go. -/
def process_offline_queue (h : Health) (now : Int) (svc : String)
    (pending : List QItem) (proc : String → ProcResult) : SweepResult :=
  if is_available h svc now then sweep_go svc now proc h pending
  else ⟨h, [], [], []⟩

/-- Claim C8, counterexample: with the service available and two pending
items, a processor that merely reports failure on the first item (returning a
falsy success value rather than raising) does not stop the sweep — the second
item is still attempted — so a failed item does not in general prevent later
pending items of the sweep from being attempted. -/
theorem C8_counterexample :
    (fun d => if d = "x" then ProcResult.failure else ProcResult.success) "x"
      = ProcResult.failure ∧
    (process_offline_queue [] 0 "svc" [⟨"a", "x", 0⟩, ⟨"b", "y", 0⟩]
      (fun d => if d = "x" then ProcResult.failure else ProcResult.success)).attempted
      = ["a", "b"] := by
  refine ⟨by decide, by decide⟩

theorem sweep_go_raised_stops (svc : String) (now : Int)
    (proc : String → ProcResult) (item : QItem) (msg : String)
    (hitem : proc item.data = ProcResult.raised msg) :
    ∀ xs ys h, (∀ z ∈ xs, ∀ e, proc z.data ≠ ProcResult.raised e) →
    (sweep_go svc now proc h (xs ++ item :: ys)).attempted =
      xs.map QItem.id ++ [item.id] := by
  intro xs
  induction xs with
  | nil =>
    intro ys h _
    simp only [List.nil_append, sweep_go, hitem, List.map_nil]
    by_cases h5 : item.attempts ≥ 5 <;> simp [h5]
  | cons z rest ih =>
    intro ys h hnr
    have hz : ∀ e, proc z.data ≠ ProcResult.raised e :=
      hnr z (List.mem_cons_self z rest)
    have hrest : ∀ w ∈ rest, ∀ e, proc w.data ≠ ProcResult.raised e :=
      fun w hw => hnr w (List.mem_cons_of_mem z hw)
    cases hcase : proc z.data with
    | success =>
      simp only [List.cons_append, sweep_go, hcase, List.map_cons,
        List.cons_append, List.append_eq]
      rw [ih ys (record_success h svc now) hrest]
    | failure =>
      simp only [List.cons_append, sweep_go, hcase, List.append_eq]
      by_cases h5 : z.attempts ≥ 5
      · rw [if_pos h5]
        simp only [List.map_cons, List.cons_append]
        rw [ih ys h hrest]
      · rw [if_neg h5]
        simp only [List.map_cons, List.cons_append]
        rw [ih ys h hrest]
    | raised e => exact absurd hcase (hz e)

/-- Claim C8, amended: a sweep attempts no pending item when the health
monitor reports the service unavailable; within a sweep, the first item whose
processing raises an error ends the sweep, so no later pending item is
attempted after it — while an item whose processor merely reports failure,
without raising, does not stop the sweep. -/
theorem C8_process_offline_queue (h : Health) (now : Int) (svc : String)
    (pending : List QItem) (proc : String → ProcResult)
    (xs ys : List QItem) (item : QItem) (msg : String)
    (hsplit : pending = xs ++ item :: ys)
    (hnr : ∀ z ∈ xs, ∀ e, proc z.data ≠ ProcResult.raised e)
    (hitem : proc item.data = ProcResult.raised msg) :
    (is_available h svc now = false →
      process_offline_queue h now svc pending proc = ⟨h, [], [], []⟩) ∧
    (is_available h svc now = true →
      (process_offline_queue h now svc pending proc).attempted =
        xs.map QItem.id ++ [item.id]) := by
  constructor
  · intro hav
    simp [process_offline_queue, hav]
  · intro hav
    subst hsplit
    simp only [process_offline_queue, hav, if_true]
    exact sweep_go_raised_stops svc now proc item msg hitem xs ys h hnr

/-- Witness for C8_process_offline_queue: one non-raising item followed by an
item whose processing raises, after which the third pending item is never
attempted. -/
theorem C8_witness :
    (is_available [] "svc" 0 = false →
      process_offline_queue [] 0 "svc"
        [⟨"a", "x", 0⟩, ⟨"b", "y", 0⟩, ⟨"c", "z", 0⟩]
        (fun d => if d = "y" then ProcResult.raised "boom" else ProcResult.success)
        = ⟨[], [], [], []⟩) ∧
    (is_available [] "svc" 0 = true →
      (process_offline_queue [] 0 "svc"
        [⟨"a", "x", 0⟩, ⟨"b", "y", 0⟩, ⟨"c", "z", 0⟩]
        (fun d => if d = "y" then ProcResult.raised "boom" else ProcResult.success)).attempted
        = [⟨"a", "x", 0⟩].map QItem.id ++ [(⟨"b", "y", 0⟩ : QItem).id]) :=
  C8_process_offline_queue [] 0 "svc"
    [⟨"a", "x", 0⟩, ⟨"b", "y", 0⟩, ⟨"c", "z", 0⟩]
    (fun d => if d = "y" then ProcResult.raised "boom" else ProcResult.success)
    [⟨"a", "x", 0⟩] [⟨"c", "z", 0⟩] ⟨"b", "y", 0⟩ "boom"
    (by decide)
    (by
      intro z hz e
      simp only [List.mem_singleton] at hz
      subst hz
      simp)
    (by decide)

/-! Claim-by-rename primitives: claim_file of
src/scripts/cloud/cloud_draft_worker.py and claim_cloud_draft of
src/scripts/local/local_executive_agent.py.  A rename on one filesystem
either succeeds, fails because the source is gone (FileNotFoundError), or
fails with another OSError; the injected fault argument models the latter. -/

/-- Directory pair seen by a claim attempt: the watched source directory and
the in-progress directory of the claiming agent, as lists of file names. -/
structure ClaimFS where
  source_dir : List Str
  in_progress : List Str
deriving DecidableEq, Repr

/-- Result of the underlying os.rename: success, source vanished, or another
OS-level failure carried by the injected fault. -/
inductive RenameOutcome where
  | renamed
  | srcMissing
  | osFailure (msg : String)
deriving DecidableEq, Repr

/-- Models the one rename both claim functions attempt: it succeeds exactly
when the source name is still present and no OS fault is injected. -/
def rename_outcome (fs : ClaimFS) (name : Str) (fault : Option String) :
    RenameOutcome :=
  match fault with
  | some m => RenameOutcome.osFailure m
  | none =>
    if name ∈ fs.source_dir then RenameOutcome.renamed
    else RenameOutcome.srcMissing

/-- Models claim_file of the cloud draft worker: on a successful rename the
claimed target path is returned and the file moves into the in-progress
directory; FileNotFoundError and every other OSError are caught and turned
into a none result with the directories untouched. -/
def claim_file (fs : ClaimFS) (name : Str) (fault : Option String) :
    Option Str × ClaimFS :=
  match rename_outcome fs name fault with
  | RenameOutcome.renamed =>
    (some name, ⟨fs.source_dir.erase name, name :: fs.in_progress⟩)
  | RenameOutcome.srcMissing => (none, fs)
  | RenameOutcome.osFailure _ => (none, fs)

/-- Models claim_cloud_draft of the local executive agent, which has the same
shape over the local in-progress directory. -/
def claim_cloud_draft (fs : ClaimFS) (name : Str) (fault : Option String) :
    Option Str × ClaimFS :=
  match rename_outcome fs name fault with
  | RenameOutcome.renamed =>
    (some name, ⟨fs.source_dir.erase name, name :: fs.in_progress⟩)
  | RenameOutcome.srcMissing => (none, fs)
  | RenameOutcome.osFailure _ => (none, fs)

/-- Claim C2: when the source file no longer exists at rename time, both
claim functions return a non-claimed result with the directories unchanged
instead of raising, any other OS-level rename failure is likewise returned as
non-claimed for that cycle, and a claimed result is produced exactly when the
fault-free rename finds the source present. -/
theorem C2_claim_not_raised (fs : ClaimFS) (name : Str) (m : String)
    (hmiss : name ∉ fs.source_dir) :
    claim_file fs name none = (none, fs) ∧
    claim_cloud_draft fs name none = (none, fs) ∧
    claim_file fs name (some m) = (none, fs) ∧
    claim_cloud_draft fs name (some m) = (none, fs) ∧
    (∀ gs : ClaimFS, ∀ fault : Option String,
      (claim_file gs name fault).1.isSome = true ↔
        fault = none ∧ name ∈ gs.source_dir) := by
  refine ⟨?_, ?_, ?_, ?_, ?_⟩
  · simp [claim_file, rename_outcome, hmiss]
  · simp [claim_cloud_draft, rename_outcome, hmiss]
  · simp [claim_file, rename_outcome]
  · simp [claim_cloud_draft, rename_outcome]
  · intro gs fault
    cases fault with
    | some m2 => simp [claim_file, rename_outcome]
    | none =>
      by_cases hmem : name ∈ gs.source_dir <;>
        simp [claim_file, rename_outcome, hmem]

/-- Witness for C2_claim_not_raised on a directory that does not hold the
requested name. -/
theorem C2_witness :
    claim_file ⟨[str "other.md"], []⟩ (str "gone.md") none
      = (none, ⟨[str "other.md"], []⟩) ∧
    claim_cloud_draft ⟨[str "other.md"], []⟩ (str "gone.md") none
      = (none, ⟨[str "other.md"], []⟩) ∧
    claim_file ⟨[str "other.md"], []⟩ (str "gone.md") (some "permission denied")
      = (none, ⟨[str "other.md"], []⟩) ∧
    claim_cloud_draft ⟨[str "other.md"], []⟩ (str "gone.md")
      (some "permission denied") = (none, ⟨[str "other.md"], []⟩) ∧
    (∀ gs : ClaimFS, ∀ fault : Option String,
      (claim_file gs (str "gone.md") fault).1.isSome = true ↔
        fault = none ∧ str "gone.md" ∈ gs.source_dir) :=
  C2_claim_not_raised ⟨[str "other.md"], []⟩ (str "gone.md")
    "permission denied" (by decide)

/-! Single-writer dashboard gate (update_dashboard of
src/scheduler/tasks/update_dashboard.py).  The generation of the dashboard
text from queue counts is irrelevant to the gate and is abstracted as the
generated argument; the claim is about whether the file is written at all. -/

/-- Content of the persisted dashboard writer lock State/dashboard_writer.lock:
missing, unparseable JSON, or a parsed record with an owner field. -/
inductive LockFileState where
  | absent
  | malformed
  | valid (owner : Str)
deriving DecidableEq, Repr

/-- Lower-casing of one ASCII character, as Python str.lower on the owners
used by the repository. -/
def pyLowerChar (c : Char) : Char :=
  if 'A' ≤ c ∧ c ≤ 'Z' then Char.ofNat (c.toNat + 32) else c

/-- State touched by a dashboard update: the current bytes of Dashboard.md. -/
structure DashboardFS where
  dashboard : String
deriving DecidableEq, Repr

/-- Result of one update_dashboard call: the file state afterwards and
whether a write was performed. -/
structure DashboardRun where
  fs : DashboardFS
  wrote : Bool
deriving DecidableEq, Repr

/-- Models update_dashboard: when the writer lock parses and its lower-cased
owner is local while the caller does not assert the local-agent identity
through LOCAL_EXEC_AGENT=1, the update is skipped as a logged no-op; in every
other situation (no lock, malformed lock, other owner, or asserted local
identity) the freshly generated content is written. -/
def update_dashboard (lock : LockFileState) (localExecEnv : Option String)
    (generated : String) (fs : DashboardFS) : DashboardRun :=
  match lock with
  | LockFileState.valid owner =>
    if owner.map pyLowerChar = str "local" ∧ localExecEnv ≠ some "1" then
      ⟨fs, false⟩
    else ⟨⟨generated⟩, true⟩
  | _ => ⟨⟨generated⟩, true⟩

/-- Claim C7: with the persisted lock owned by local and a caller that does
not assert the local-agent identity, update_dashboard performs no write and
the Dashboard.md bytes are exactly what they were before the attempt. -/
theorem C7_single_writer_gate (lock : LockFileState) (owner : Str)
    (env : Option String) (generated : String) (fs : DashboardFS)
    (hlock : lock = LockFileState.valid owner)
    (hown : owner.map pyLowerChar = str "local")
    (henv : env ≠ some "1") :
    update_dashboard lock env generated fs = ⟨fs, false⟩ := by
  subst hlock
  simp [update_dashboard, hown, henv]

/-- Witness for C7_single_writer_gate: a lock owned by local, an unset
LOCAL_EXEC_AGENT variable, and concrete dashboard bytes left untouched. -/
theorem C7_witness :
    update_dashboard (LockFileState.valid (str "Local")) none "fresh content"
      ⟨"old dashboard bytes"⟩ = ⟨⟨"old dashboard bytes"⟩, false⟩ :=
  C7_single_writer_gate (LockFileState.valid (str "Local")) (str "Local")
    none "fresh content" ⟨"old dashboard bytes"⟩ rfl (by decide) (by decide)

/-! Approved-queue processing (process_approved of src/main.py).  A channel is
a glob pattern together with an opaque channel processor; the processor is
modelled by the set of files it consumes out of Approved (a processor archives
the items it handles).  Duplicate filtering, archiving to Done and signature
finalisation follow _filter_duplicate_approved_files, _move_to_done and
_finalize_processed_files. -/

/-- Entry of the processed-approvals registry Logs/processed_approvals.json,
as written by _record_processed_signature. -/
structure SigRecord where
  file : Str
  processor : Str
  processed_at : Str
  result_ref : Option Int
deriving DecidableEq, Repr

/-- Registry map from content signature to its processing record. -/
abbrev Registry := List (Str × SigRecord)

/-- Dictionary lookup in the registry. -/
def regLookup (r : Registry) (sig : Str) : Option SigRecord :=
  (r.find? (fun p => p.1 = sig)).map Prod.snd

/-- Dictionary write in the registry; the new binding shadows any older one. -/
def regInsert (r : Registry) (sig : Str) (rec : SigRecord) : Registry :=
  (sig, rec) :: r

/-- Models _move_to_done of src/main.py over the list of names in Done: an
optional marker is joined to the name with an underscore, and a name collision
in Done is resolved by putting a timestamp in front.  Returns the archived
name and the grown Done listing. -/
def move_to_done (done : List Str) (ts : Str) (marker : Option Str)
    (name : Str) : Str × List Str :=
  let n :=
    match marker with
    | some mk => mk ++ str "_" ++ name
    | none => name
  if n ∈ done then
    let n2 := ts ++ str "_" ++ n
    (n2, n2 :: done)
  else (n, n :: done)

/-- Duplicate-skip outcome appended to the duplicates list of the summary. -/
structure DupOutcome where
  status : Str
  processor : Str
  file : Str
  original_file : Str
  archived_as : Str
deriving DecidableEq, Repr

/-- Result of _filter_duplicate_approved_files: the unique files that remain
for the channel processor, the name-to-signature map for later success
recording, the Done listing grown by the archived duplicates, and the emitted
duplicate-skip outcomes. -/
structure FilterOut where
  uniques : List VFile
  sigmap : List (Str × Str)
  done : List Str
  dups : List DupOutcome
deriving DecidableEq, Repr

/-- Models _filter_duplicate_approved_files: a file whose content signature is
already in the registry is archived into Done under a DUPLICATE marker and
reported as a skipped duplicate; the other files are kept, with their
signatures mapped for later recording. -/
def filter_duplicate_approved_files (procName ts : Str) (seen : Registry) :
    List VFile → List Str → FilterOut
  | [], done => ⟨[], [], done, []⟩
  | f :: fs, done =>
    match regLookup seen (approval_signature f) with
    | some rec =>
      let mv := move_to_done done ts (some (str "DUPLICATE")) f.name
      let r := filter_duplicate_approved_files procName ts seen fs mv.2
      ⟨r.uniques, r.sigmap, r.done,
        ⟨str "skipped_duplicate", procName, f.name, rec.file, mv.1⟩ :: r.dups⟩
    | none =>
      let r := filter_duplicate_approved_files procName ts seen fs done
      ⟨f :: r.uniques, (f.name, approval_signature f) :: r.sigmap, r.done, r.dups⟩

/-- Models _finalize_processed_files: every unique file that is no longer
present in Approved after the channel processor ran has its signature recorded
as processed. -/
def finalize_processed_files (procName ts : Str) (uniques : List VFile)
    (sigmap : List (Str × Str)) (approvedAfter : List VFile)
    (seen : Registry) : Registry :=
  uniques.foldl
    (fun acc f =>
      if f ∈ approvedAfter then acc
      else
        match (sigmap.find? (fun p => p.1 = f.name)).map Prod.snd with
        | some sig => regInsert acc sig ⟨f.name, procName, ts, none⟩
        | none => acc)
    seen

/-- Vault state seen by one channel of process_approved. -/
structure ChanState where
  approved : List VFile
  done : List Str
  seen : Registry
deriving DecidableEq, Repr

/-- Result of one channel pass: the new vault state, the duplicate-skip
outcomes, and the batches on which the channel processor was invoked. -/
structure ChanRun where
  state : ChanState
  dups : List DupOutcome
  invocations : List (List VFile)
deriving DecidableEq, Repr

/-- Models one channel of process_approved: glob the Approved directory with
the channel pattern, archive the duplicates, invoke the channel processor
only when unique files remain (the processor consuming the files it handles
out of Approved), and finalise the signatures of the files that are gone
afterwards. -/
def run_channel (pat : Str → Bool) (procName ts : Str)
    (proc : List VFile → List VFile) (s : ChanState) : ChanRun :=
  let files := s.approved.filter (fun f => pat f.name)
  let fo := filter_duplicate_approved_files procName ts s.seen files s.done
  let approved1 := s.approved.filter
    (fun f => !(pat f.name && (regLookup s.seen (approval_signature f)).isSome))
  if fo.uniques.isEmpty then ⟨⟨approved1, fo.done, s.seen⟩, fo.dups, []⟩
  else
    let consumed := proc fo.uniques
    let approved2 := approved1.filter (fun f => !(consumed.contains f))
    let seen2 := finalize_processed_files procName ts fo.uniques fo.sigmap
      approved2 s.seen
    ⟨⟨approved2, fo.done, seen2⟩, fo.dups, [fo.uniques]⟩

theorem move_to_done_mono (done : List Str) (ts : Str) (marker : Option Str)
    (name x : Str) (hx : x ∈ done) : x ∈ (move_to_done done ts marker name).2 := by
  simp only [move_to_done]
  split <;> simp [hx]

theorem move_to_done_self (done : List Str) (ts : Str) (marker : Option Str)
    (name : Str) : (move_to_done done ts marker name).1 ∈
      (move_to_done done ts marker name).2 := by
  simp only [move_to_done]
  split <;> simp

theorem move_to_done_marked (done : List Str) (ts mk name : Str) :
    (move_to_done done ts (some mk) name).1 = mk ++ str "_" ++ name ∨
    (move_to_done done ts (some mk) name).1
      = ts ++ str "_" ++ (mk ++ str "_" ++ name) := by
  simp only [move_to_done]
  split
  · right; rfl
  · left; rfl

theorem filter_dups_done_mono (procName ts : Str) (seen : Registry) :
    ∀ (fs : List VFile) (done : List Str) (x : Str), x ∈ done →
    x ∈ (filter_duplicate_approved_files procName ts seen fs done).done := by
  intro fs
  induction fs with
  | nil =>
    intro done x hx
    simpa [filter_duplicate_approved_files] using hx
  | cons f rest ih =>
    intro done x hx
    cases hreg : regLookup seen (approval_signature f) with
    | some rec =>
      simp only [filter_duplicate_approved_files, hreg]
      exact ih _ x (move_to_done_mono _ _ _ _ x hx)
    | none =>
      simp only [filter_duplicate_approved_files, hreg]
      exact ih _ x hx

theorem filter_dups_uniques_mem (procName ts : Str) (seen : Registry) :
    ∀ (fs : List VFile) (done : List Str) (g : VFile),
    g ∈ (filter_duplicate_approved_files procName ts seen fs done).uniques →
    g ∈ fs ∧ regLookup seen (approval_signature g) = none := by
  intro fs
  induction fs with
  | nil =>
    intro done g hg
    simp [filter_duplicate_approved_files] at hg
  | cons f rest ih =>
    intro done g hg
    cases hreg : regLookup seen (approval_signature f) with
    | some rec =>
      simp only [filter_duplicate_approved_files, hreg] at hg
      have := ih _ g hg
      exact ⟨List.mem_cons_of_mem f this.1, this.2⟩
    | none =>
      simp only [filter_duplicate_approved_files, hreg, List.mem_cons] at hg
      cases hg with
      | inl heq =>
        subst heq
        exact ⟨List.mem_cons_self g rest, hreg⟩
      | inr hmem =>
        have := ih _ g hmem
        exact ⟨List.mem_cons_of_mem f this.1, this.2⟩

theorem filter_dups_mem_uniques (procName ts : Str) (seen : Registry) :
    ∀ (fs : List VFile) (done : List Str) (g : VFile), g ∈ fs →
    regLookup seen (approval_signature g) = none →
    g ∈ (filter_duplicate_approved_files procName ts seen fs done).uniques := by
  intro fs
  induction fs with
  | nil => intro done g hg; simp at hg
  | cons f rest ih =>
    intro done g hg hnone
    rcases List.mem_cons.mp hg with heq | hmem
    · subst heq
      simp only [filter_duplicate_approved_files, hnone]
      exact List.mem_cons_self g _
    · cases hreg : regLookup seen (approval_signature f) with
      | some rec =>
        simp only [filter_duplicate_approved_files, hreg]
        exact ih _ g hmem hnone
      | none =>
        simp only [filter_duplicate_approved_files, hreg]
        exact List.mem_cons_of_mem f (ih _ g hmem hnone)

theorem filter_dups_dup_out (procName ts : Str) (seen : Registry) :
    ∀ (fs : List VFile) (done : List Str) (f : VFile) (rec : SigRecord),
    f ∈ fs → regLookup seen (approval_signature f) = some rec →
    ∃ d ∈ (filter_duplicate_approved_files procName ts seen fs done).dups,
      d.status = str "skipped_duplicate" ∧ d.file = f.name ∧
      d.archived_as ∈ (filter_duplicate_approved_files procName ts seen fs done).done ∧
      (d.archived_as = str "DUPLICATE" ++ str "_" ++ f.name ∨
        d.archived_as = ts ++ str "_" ++ (str "DUPLICATE" ++ str "_" ++ f.name)) := by
  intro fs
  induction fs with
  | nil => intro done f rec hf; simp at hf
  | cons g rest ih =>
    intro done f rec hf hreg
    rcases List.mem_cons.mp hf with heq | hmem
    · subst heq
      simp only [filter_duplicate_approved_files, hreg]
      refine ⟨⟨str "skipped_duplicate", procName, f.name, rec.file,
        (move_to_done done ts (some (str "DUPLICATE")) f.name).1⟩,
        List.mem_cons_self _ _, rfl, rfl, ?_, ?_⟩
      · exact filter_dups_done_mono procName ts seen rest _ _
          (move_to_done_self done ts (some (str "DUPLICATE")) f.name)
      · exact move_to_done_marked done ts (str "DUPLICATE") f.name
    · cases hcase : regLookup seen (approval_signature g) with
      | some rec2 =>
        simp only [filter_duplicate_approved_files, hcase]
        obtain ⟨d, hd, hprops⟩ := ih _ f rec hmem hreg
        exact ⟨d, List.mem_cons_of_mem _ hd, hprops⟩
      | none =>
        simp only [filter_duplicate_approved_files, hcase]
        exact ih _ f rec hmem hreg

theorem run_channel_dups_done (pat : Str → Bool) (procName ts : Str)
    (proc : List VFile → List VFile) (s : ChanState) :
    (run_channel pat procName ts proc s).dups =
      (filter_duplicate_approved_files procName ts s.seen
        (s.approved.filter (fun f => pat f.name)) s.done).dups ∧
    (run_channel pat procName ts proc s).state.done =
      (filter_duplicate_approved_files procName ts s.seen
        (s.approved.filter (fun f => pat f.name)) s.done).done := by
  simp only [run_channel]
  split <;> exact ⟨rfl, rfl⟩

theorem run_channel_inv_mem (pat : Str → Bool) (procName ts : Str)
    (proc : List VFile → List VFile) (s : ChanState) (batch : List VFile)
    (hb : batch ∈ (run_channel pat procName ts proc s).invocations) :
    batch = (filter_duplicate_approved_files procName ts s.seen
      (s.approved.filter (fun f => pat f.name)) s.done).uniques := by
  simp only [run_channel] at hb
  split at hb
  · simp at hb
  · simp only [ChanRun.invocations, List.mem_singleton] at hb
    exact hb

theorem mem_approved1_none (pat : Str → Bool) (s : ChanState) (g : VFile)
    (hpat : pat g.name = true)
    (hg1 : g ∈ s.approved.filter
      (fun f => !(pat f.name && (regLookup s.seen (approval_signature f)).isSome))) :
    regLookup s.seen (approval_signature g) = none := by
  rcases hlook : regLookup s.seen (approval_signature g) with _ | r
  · rfl
  · exfalso
    have hps := (List.mem_filter.mp hg1).2
    rw [hlook, hpat] at hps
    simp at hps

theorem run_channel_approved_clear (pat : Str → Bool) (procName ts : Str)
    (proc : List VFile → List VFile) (s : ChanState)
    (hproc : ∀ l, proc l = l) :
    (run_channel pat procName ts proc s).state.approved.filter
      (fun g => pat g.name) = [] := by
  rw [List.filter_eq_nil_iff]
  intro g hg hpat
  simp only [run_channel] at hg
  split at hg
  next htrue =>
    have hg1 : g ∈ s.approved.filter
        (fun f => !(pat f.name && (regLookup s.seen (approval_signature f)).isSome)) :=
      hg
    have hnone := mem_approved1_none pat s g hpat hg1
    have hgf : g ∈ s.approved.filter (fun f => pat f.name) :=
      List.mem_filter.mpr ⟨(List.mem_filter.mp hg1).1, hpat⟩
    have huni := filter_dups_mem_uniques procName ts s.seen _ s.done g hgf hnone
    rw [List.isEmpty_iff] at htrue
    rw [htrue] at huni
    simp at huni
  next hfalse =>
    have hg1 : g ∈ (s.approved.filter
        (fun f => !(pat f.name && (regLookup s.seen (approval_signature f)).isSome))).filter
        (fun f => !((proc (filter_duplicate_approved_files procName ts s.seen
          (s.approved.filter (fun f => pat f.name)) s.done).uniques).contains f)) :=
      hg
    have hg2 := List.mem_filter.mp hg1
    have hnone := mem_approved1_none pat s g hpat hg2.1
    have hgf : g ∈ s.approved.filter (fun f => pat f.name) :=
      List.mem_filter.mpr ⟨(List.mem_filter.mp hg2.1).1, hpat⟩
    have huni := filter_dups_mem_uniques procName ts s.seen _ s.done g hgf hnone
    have hnc := hg2.2
    rw [hproc] at hnc
    simp only [Bool.not_eq_true'] at hnc
    simp at hnc
    exact hnc huni

theorem run_channel_inv_nil_of_no_match (pat : Str → Bool) (procName ts : Str)
    (proc : List VFile → List VFile) (s2 : ChanState)
    (hnm : s2.approved.filter (fun f => pat f.name) = []) :
    (run_channel pat procName ts proc s2).invocations = [] := by
  simp only [run_channel, hnm, filter_duplicate_approved_files]
  simp

/-- Claim C1: an Approved file whose content signature is already in the
processed-approvals registry is archived into Done under a DUPLICATE marker
and reported as a skipped_duplicate outcome, and the channel processor is
never invoked on it; consequently, when the channel processor consumes the
files handed to it, a second identical pass over the Approved queue performs
zero channel-processor invocations. -/
theorem C1_idempotent_approved (pat : Str → Bool) (procName ts : Str)
    (proc : List VFile → List VFile) (s : ChanState) (f : VFile)
    (rec : SigRecord) (hproc : ∀ l, proc l = l) (hf : f ∈ s.approved)
    (hpat : pat f.name = true)
    (hdup : regLookup s.seen (approval_signature f) = some rec) :
    (∃ d ∈ (run_channel pat procName ts proc s).dups,
      d.status = str "skipped_duplicate" ∧ d.file = f.name ∧
      d.archived_as ∈ (run_channel pat procName ts proc s).state.done ∧
      (d.archived_as = str "DUPLICATE" ++ str "_" ++ f.name ∨
        d.archived_as = ts ++ str "_" ++ (str "DUPLICATE" ++ str "_" ++ f.name))) ∧
    (∀ batch ∈ (run_channel pat procName ts proc s).invocations, f ∉ batch) ∧
    (run_channel pat procName ts proc
      (run_channel pat procName ts proc s).state).invocations = [] := by
  obtain ⟨hdups, hdone⟩ := run_channel_dups_done pat procName ts proc s
  refine ⟨?_, ?_, ?_⟩
  · rw [hdups, hdone]
    exact filter_dups_dup_out procName ts s.seen _ s.done f rec
      (List.mem_filter.mpr ⟨hf, hpat⟩) hdup
  · intro batch hb hfb
    rw [run_channel_inv_mem pat procName ts proc s batch hb] at hfb
    have := (filter_dups_uniques_mem procName ts s.seen _ s.done f hfb).2
    rw [hdup] at this
    cases this
  · exact run_channel_inv_nil_of_no_match pat procName ts proc _
      (run_channel_approved_clear pat procName ts proc s hproc)

/-- Witness for C1_idempotent_approved: one Approved file whose signature is
already registered, an identity channel processor, and a trivially matching
channel pattern. -/
theorem C1_witness :
    (∃ d ∈ (run_channel (fun _ => true) (str "email") (str "TS") (fun l => l)
        ⟨[⟨str "EMAIL_SEND_1.md", str "body"⟩], [],
          [(approval_signature ⟨str "EMAIL_SEND_1.md", str "body"⟩,
            ⟨str "EMAIL_SEND_0.md", str "email", str "T0", none⟩)]⟩).dups,
      d.status = str "skipped_duplicate" ∧
      d.file = (⟨str "EMAIL_SEND_1.md", str "body"⟩ : VFile).name ∧
      d.archived_as ∈ (run_channel (fun _ => true) (str "email") (str "TS")
        (fun l => l)
        ⟨[⟨str "EMAIL_SEND_1.md", str "body"⟩], [],
          [(approval_signature ⟨str "EMAIL_SEND_1.md", str "body"⟩,
            ⟨str "EMAIL_SEND_0.md", str "email", str "T0", none⟩)]⟩).state.done ∧
      (d.archived_as = str "DUPLICATE" ++ str "_"
          ++ (⟨str "EMAIL_SEND_1.md", str "body"⟩ : VFile).name ∨
        d.archived_as = str "TS" ++ str "_" ++ (str "DUPLICATE" ++ str "_"
          ++ (⟨str "EMAIL_SEND_1.md", str "body"⟩ : VFile).name))) ∧
    (∀ batch ∈ (run_channel (fun _ => true) (str "email") (str "TS")
        (fun l => l)
        ⟨[⟨str "EMAIL_SEND_1.md", str "body"⟩], [],
          [(approval_signature ⟨str "EMAIL_SEND_1.md", str "body"⟩,
            ⟨str "EMAIL_SEND_0.md", str "email", str "T0", none⟩)]⟩).invocations,
      (⟨str "EMAIL_SEND_1.md", str "body"⟩ : VFile) ∉ batch) ∧
    (run_channel (fun _ => true) (str "email") (str "TS") (fun l => l)
      (run_channel (fun _ => true) (str "email") (str "TS") (fun l => l)
        ⟨[⟨str "EMAIL_SEND_1.md", str "body"⟩], [],
          [(approval_signature ⟨str "EMAIL_SEND_1.md", str "body"⟩,
            ⟨str "EMAIL_SEND_0.md", str "email", str "T0", none⟩)]⟩).state).invocations
      = [] :=
  C1_idempotent_approved (fun _ => true) (str "email") (str "TS") (fun l => l)
    ⟨[⟨str "EMAIL_SEND_1.md", str "body"⟩], [],
      [(approval_signature ⟨str "EMAIL_SEND_1.md", str "body"⟩,
        ⟨str "EMAIL_SEND_0.md", str "email", str "T0", none⟩)]⟩
    ⟨str "EMAIL_SEND_1.md", str "body"⟩
    ⟨str "EMAIL_SEND_0.md", str "email", str "T0", none⟩
    (fun _ => rfl) (by decide) rfl (by decide)

/-! Odoo approved-invoice loop (process_odoo_approved of src/main.py,
ODOO_INVOICE family).  The frontmatter and invoice-line table parsers follow
_parse_frontmatter and _parse_odoo_invoice_lines; the Odoo MCP server is an
opaque collaborator returning a status record. -/

/-- Dictionary lookup in parsed frontmatter with a default; the latest
binding of a repeated key wins, as in a Python dict built by iteration. -/
def fmGet (kvs : List (Str × Str)) (k : Str) (dflt : Str) : Str :=
  match kvs.reverse.find? (fun p => p.1 = k) with
  | some p => p.2
  | none => dflt

/-- Body loop of _parse_frontmatter: read key: value lines until the closing
delimiter, skipping lines without a colon. -/
def parse_frontmatter_go : List Str → List (Str × Str)
  | [] => []
  | l :: rest =>
    if pyStrip l = str "---" then []
    else
      match splitFirst ':' l with
      | some (k, v) => (pyStrip k, pyStrip v) :: parse_frontmatter_go rest
      | none => parse_frontmatter_go rest

/-- Models _parse_frontmatter of src/main.py. -/
def parse_frontmatter (text : Str) : List (Str × Str) :=
  let lines := pySplitlines text
  match lines with
  | [] => []
  | l0 :: rest =>
    if lines.length < 3 ∨ pyStrip l0 ≠ str "---" then []
    else parse_frontmatter_go rest

/-- Row of the parsed invoice-lines table. -/
structure InvoiceLine where
  product_id : Int
  quantity : ℚ
  price_unit : ℚ
deriving DecidableEq, Repr

/-- Line loop of _parse_odoo_invoice_lines: find the Invoice Lines heading,
then read table rows until the next heading, skipping the header and ruler
rows and any row with fewer than three cells or a non-positive product id. -/
def parse_invoice_lines_go : List Str → Bool → List InvoiceLine
  | [], _ => []
  | l :: rest, reading =>
    if (str "### Invoice Lines").isPrefixOf (pyStrip l) then
      parse_invoice_lines_go rest true
    else if reading && (str "### ").isPrefixOf (pyStrip l) then []
    else if !reading || !((str "|").isPrefixOf (pyStrip l)) then
      parse_invoice_lines_go rest reading
    else if containsSeq (str "Product ID") l || containsSeq (str "----") l then
      parse_invoice_lines_go rest reading
    else
      let parts := (splitOnChar '|' (pyStripChar '|' (pyStrip l))).map pyStrip
      if parts.length < 3 then parse_invoice_lines_go rest reading
      else
        let pid := pySafeInt (parts.headD []) 0
        let qty := pySafeFloat ((parts.drop 1).headD []) 1
        let price := pySafeFloat ((parts.drop 2).headD []) 0
        if pid > 0 then ⟨pid, qty, price⟩ :: parse_invoice_lines_go rest reading
        else parse_invoice_lines_go rest reading

/-- Models _parse_odoo_invoice_lines of src/main.py. -/
def parse_odoo_invoice_lines (text : Str) : List InvoiceLine :=
  parse_invoice_lines_go (pySplitlines text) false

/-- Status record returned by OdooMCPServer.create_invoice. -/
structure OdooResult where
  status : Str
  invoice_id : Option Int
deriving DecidableEq, Repr

/-- Entry of the results list built by process_odoo_approved. -/
inductive OdooOutcome where
  | dupSkipped (processor file original archived : Str)
  | invalid (processor file message : Str)
  | executed (processor file : Str) (result : OdooResult)
deriving DecidableEq, Repr

/-- Glob test for ODOO_INVOICE_*.md names. -/
def isOdooInvoiceName (n : Str) : Bool :=
  (str "ODOO_INVOICE_").isPrefixOf n && (str ".md").isSuffixOf n &&
    decide ((str "ODOO_INVOICE_").length + (str ".md").length ≤ n.length)

/-- State and outcomes after the Odoo invoice loop. -/
structure OdooRun where
  approved : List VFile
  done : List Str
  seen : Registry
  outcomes : List OdooOutcome
deriving DecidableEq, Repr

/-- Models the ODOO_INVOICE loop of process_odoo_approved: per file, a
registered signature is archived as a duplicate; a non-positive partner_id or
an empty invoice-lines table records an error outcome with a diagnostic and
moves on to the next file, leaving the file where it is; otherwise the server
creates the invoice and a success archives the file and records its
signature. -/
def process_odoo_invoice_files (server : Int → List InvoiceLine → OdooResult)
    (ts : Str) : List VFile → List Str → Registry → OdooRun
  | [], done, seen => ⟨[], done, seen, []⟩
  | f :: fs, done, seen =>
    match regLookup seen (approval_signature f) with
    | some rec =>
      let mv := move_to_done done ts (some (str "DUPLICATE")) f.name
      let r := process_odoo_invoice_files server ts fs mv.2 seen
      ⟨r.approved, r.done, r.seen,
        OdooOutcome.dupSkipped (str "odoo_invoice") f.name rec.file mv.1
          :: r.outcomes⟩
    | none =>
      let meta := parse_frontmatter f.content
      let partner_id := pySafeInt (fmGet meta (str "partner_id") (str "0")) 0
      let invoice_lines := parse_odoo_invoice_lines f.content
      if partner_id ≤ 0 ∨ invoice_lines = [] then
        let r := process_odoo_invoice_files server ts fs done seen
        ⟨f :: r.approved, r.done, r.seen,
          OdooOutcome.invalid (str "odoo_invoice") f.name
            (str "invalid partner_id or invoice lines") :: r.outcomes⟩
      else
        let result := server partner_id invoice_lines
        if result.status = str "success" then
          let mv := move_to_done done ts none f.name
          let seen1 := regInsert seen (approval_signature f)
            ⟨f.name, str "odoo_invoice", ts, result.invoice_id⟩
          let r := process_odoo_invoice_files server ts fs mv.2 seen1
          ⟨r.approved, r.done, r.seen,
            OdooOutcome.executed (str "odoo_invoice") f.name result :: r.outcomes⟩
        else
          let r := process_odoo_invoice_files server ts fs done seen
          ⟨f :: r.approved, r.done, r.seen,
            OdooOutcome.executed (str "odoo_invoice") f.name result :: r.outcomes⟩

/-- Models the ODOO_INVOICE part of process_odoo_approved over a vault state:
the loop runs on the files globbed by ODOO_INVOICE_*.md, the other Approved
files being untouched. -/
def process_odoo_approved_invoices (server : Int → List InvoiceLine → OdooResult)
    (ts : Str) (s : ChanState) : OdooRun :=
  let files := s.approved.filter (fun f => isOdooInvoiceName f.name)
  let others := s.approved.filter (fun f => !(isOdooInvoiceName f.name))
  let r := process_odoo_invoice_files server ts files s.done s.seen
  ⟨others ++ r.approved, r.done, r.seen, r.outcomes⟩

theorem regLookup_insert_ne (r : Registry) (k sig : Str) (rec : SigRecord)
    (h : sig ≠ k) : regLookup (regInsert r k rec) sig = regLookup r sig := by
  simp only [regLookup, regInsert, List.find?]
  have : ((k, rec).1 = sig) = False := by simp [Ne.symm h]
  simp [this]

theorem odoo_outcomes_length (server : Int → List InvoiceLine → OdooResult)
    (ts : Str) : ∀ (fs : List VFile) (done : List Str) (seen : Registry),
    (process_odoo_invoice_files server ts fs done seen).outcomes.length
      = fs.length := by
  intro fs
  induction fs with
  | nil => intro done seen; simp [process_odoo_invoice_files]
  | cons f rest ih =>
    intro done seen
    cases hreg : regLookup seen (approval_signature f) with
    | some rec =>
      simp only [process_odoo_invoice_files, hreg]
      simp [ih]
    | none =>
      simp only [process_odoo_invoice_files, hreg]
      by_cases hbad : pySafeInt (fmGet (parse_frontmatter f.content)
          (str "partner_id") (str "0")) 0 ≤ 0 ∨ parse_odoo_invoice_lines f.content = []
      · rw [if_pos hbad]
        simp [ih]
      · rw [if_neg hbad]
        by_cases hok : (server (pySafeInt (fmGet (parse_frontmatter f.content)
            (str "partner_id") (str "0")) 0) (parse_odoo_invoice_lines f.content)).status
            = str "success"
        · rw [if_pos hok]
          simp [ih]
        · rw [if_neg hok]
          simp [ih]

theorem odoo_invalid_kept (server : Int → List InvoiceLine → OdooResult)
    (ts : Str) (f : VFile)
    (hbad : pySafeInt (fmGet (parse_frontmatter f.content) (str "partner_id")
      (str "0")) 0 ≤ 0 ∨ parse_odoo_invoice_lines f.content = []) :
    ∀ (fs : List VFile) (done : List Str) (seen : Registry), f ∈ fs →
    regLookup seen (approval_signature f) = none →
    (∀ g ∈ fs, g ≠ f → approval_signature g ≠ approval_signature f) →
    OdooOutcome.invalid (str "odoo_invoice") f.name
        (str "invalid partner_id or invoice lines")
      ∈ (process_odoo_invoice_files server ts fs done seen).outcomes ∧
    f ∈ (process_odoo_invoice_files server ts fs done seen).approved := by
  intro fs
  induction fs with
  | nil => intro done seen hf; simp at hf
  | cons g rest ih =>
    intro done seen hf hnone huniq
    by_cases hgf : g = f
    · subst hgf
      simp only [process_odoo_invoice_files, hnone]
      rw [if_pos hbad]
      exact ⟨List.mem_cons_self _ _, List.mem_cons_self _ _⟩
    · have hmem : f ∈ rest := by
        rcases List.mem_cons.mp hf with heq | hmem
        · exact absurd heq.symm hgf
        · exact hmem
      have hsig : approval_signature g ≠ approval_signature f :=
        huniq g (List.mem_cons_self g rest) hgf
      have huniq2 : ∀ z ∈ rest, z ≠ f → approval_signature z ≠ approval_signature f :=
        fun z hz => huniq z (List.mem_cons_of_mem g hz)
      cases hreg : regLookup seen (approval_signature g) with
      | some rec =>
        simp only [process_odoo_invoice_files, hreg]
        have := ih (move_to_done done ts (some (str "DUPLICATE")) g.name).2
          seen hmem hnone huniq2
        exact ⟨List.mem_cons_of_mem _ this.1, this.2⟩
      | none =>
        simp only [process_odoo_invoice_files, hreg]
        by_cases hbadg : pySafeInt (fmGet (parse_frontmatter g.content)
            (str "partner_id") (str "0")) 0 ≤ 0
            ∨ parse_odoo_invoice_lines g.content = []
        · rw [if_pos hbadg]
          have := ih done seen hmem hnone huniq2
          exact ⟨List.mem_cons_of_mem _ this.1, List.mem_cons_of_mem _ this.2⟩
        · rw [if_neg hbadg]
          by_cases hok : (server (pySafeInt (fmGet (parse_frontmatter g.content)
              (str "partner_id") (str "0")) 0) (parse_odoo_invoice_lines g.content)).status
              = str "success"
          · rw [if_pos hok]
            have hlook2 : regLookup (regInsert seen (approval_signature g)
                ⟨g.name, str "odoo_invoice", ts,
                  (server (pySafeInt (fmGet (parse_frontmatter g.content)
                    (str "partner_id") (str "0")) 0)
                    (parse_odoo_invoice_lines g.content)).invoice_id⟩)
                (approval_signature f) = none := by
              rw [regLookup_insert_ne _ _ _ _ (Ne.symm hsig)]
              exact hnone
            have := ih (move_to_done done ts none g.name).2 _ hmem hlook2 huniq2
            exact ⟨List.mem_cons_of_mem _ this.1, this.2⟩
          · rw [if_neg hok]
            have := ih done seen hmem hnone huniq2
            exact ⟨List.mem_cons_of_mem _ this.1, List.mem_cons_of_mem _ this.2⟩

/-- Approved Odoo invoice file whose frontmatter carries a non-positive
partner_id and whose body has no invoice-lines table. -/
def odooMalformedFile : VFile :=
  ⟨str "ODOO_INVOICE_20250101.md", str "---\npartner_id: 0\n---\n"⟩

/-- Approved queue holding only the malformed invoice item, with an empty
Done directory and an empty registry. -/
def odooCounterState : ChanState := ⟨[odooMalformedFile], [], []⟩

/-- Odoo server stub that reports success for every request. -/
def odooOkServer : Int → List InvoiceLine → OdooResult :=
  fun _ _ => ⟨str "success", some 7⟩

/-- Claim C9, counterexample: processing an Approved Odoo invoice item whose
partner_id is non-positive records the error outcome with its diagnostic, but
the item is not archived anywhere — Done stays empty and the item is still
sitting in Approved after the pass — so the malformed item is not archived
with an error marker as the claim states. -/
theorem C9_counterexample :
    OdooOutcome.invalid (str "odoo_invoice") odooMalformedFile.name
        (str "invalid partner_id or invoice lines")
      ∈ (process_odoo_approved_invoices odooOkServer (str "TS")
          odooCounterState).outcomes ∧
    (process_odoo_approved_invoices odooOkServer (str "TS")
      odooCounterState).approved = [odooMalformedFile] ∧
    (process_odoo_approved_invoices odooOkServer (str "TS")
      odooCounterState).done = [] := by
  refine ⟨by decide, by decide, by decide⟩

/-- Claim C9, amended: an Approved Odoo invoice item with missing required
metadata (non-positive partner_id or no invoice lines) yields an error
outcome carrying the human-readable diagnostic, and the loop continues
through the remaining items of the batch rather than aborting — every globbed
file still produces exactly one outcome — but the malformed item is left in
the Approved directory rather than being archived with an error marker. -/
theorem C9_malformed_continue (server : Int → List InvoiceLine → OdooResult)
    (ts : Str) (s : ChanState) (f : VFile)
    (hf : f ∈ s.approved) (hm : isOdooInvoiceName f.name = true)
    (hnd : regLookup s.seen (approval_signature f) = none)
    (huniq : ∀ g ∈ s.approved, g ≠ f →
      approval_signature g ≠ approval_signature f)
    (hbad : pySafeInt (fmGet (parse_frontmatter f.content) (str "partner_id")
      (str "0")) 0 ≤ 0 ∨ parse_odoo_invoice_lines f.content = []) :
    OdooOutcome.invalid (str "odoo_invoice") f.name
        (str "invalid partner_id or invoice lines")
      ∈ (process_odoo_approved_invoices server ts s).outcomes ∧
    f ∈ (process_odoo_approved_invoices server ts s).approved ∧
    (process_odoo_approved_invoices server ts s).outcomes.length
      = (s.approved.filter (fun g => isOdooInvoiceName g.name)).length := by
  have hff : f ∈ s.approved.filter (fun g => isOdooInvoiceName g.name) :=
    List.mem_filter.mpr ⟨hf, hm⟩
  have huniq2 : ∀ g ∈ s.approved.filter (fun g => isOdooInvoiceName g.name),
      g ≠ f → approval_signature g ≠ approval_signature f :=
    fun g hg => huniq g (List.mem_filter.mp hg).1
  have hmain := odoo_invalid_kept server ts f hbad
    (s.approved.filter (fun g => isOdooInvoiceName g.name)) s.done s.seen
    hff hnd huniq2
  refine ⟨hmain.1, ?_, ?_⟩
  · exact List.mem_append_right _ hmain.2
  · exact odoo_outcomes_length server ts _ s.done s.seen

/-- Witness for C9_malformed_continue at the concrete malformed invoice
item. -/
theorem C9_witness :
    OdooOutcome.invalid (str "odoo_invoice") odooMalformedFile.name
        (str "invalid partner_id or invoice lines")
      ∈ (process_odoo_approved_invoices odooOkServer (str "TS")
          odooCounterState).outcomes ∧
    odooMalformedFile ∈ (process_odoo_approved_invoices odooOkServer (str "TS")
      odooCounterState).approved ∧
    (process_odoo_approved_invoices odooOkServer (str "TS")
      odooCounterState).outcomes.length
      = (odooCounterState.approved.filter
          (fun g => isOdooInvoiceName g.name)).length :=
  C9_malformed_continue odooOkServer (str "TS") odooCounterState
    odooMalformedFile (by decide) (by decide) (by decide)
    (by decide) (by decide)

end DigitalFTE
